import Mathlib

/-!
Verification development for the WhatsApp bot core (`WhatsAppBot` class):
connection supervisor, message dispatcher, and delivery-status tracking.
The definitions below are a shallow embedding of the JavaScript source;
JS-specific semantics (first-occurrence `String.replace`, `||` truthiness,
`trim`) are modelled explicitly.
-/

/-! ## JS string primitives -/

/-- One step of JS `String.prototype.replace` with a plain-string pattern:
replaces only the FIRST occurrence of `pat` (an empty pattern matches at the
start, as in JS). -/
def replaceFirstAux (pat repl : List Char) : List Char → List Char
  | [] => if pat.isEmpty then repl else []
  | c :: cs =>
      if pat.isPrefixOf (c :: cs) then repl ++ (c :: cs).drop pat.length
      else c :: replaceFirstAux pat repl cs

/-- JS `s.replace(pat, repl)` for string `pat`: first occurrence only. -/
def replaceFirst (s pat repl : String) : String :=
  ⟨replaceFirstAux pat.data repl.data s.data⟩

/-- Substring occurrence test on character lists (JS `String.prototype.includes`). -/
def containsSubAux (pat : List Char) : List Char → Bool
  | [] => pat.isEmpty
  | c :: cs => pat.isPrefixOf (c :: cs) || containsSubAux pat cs

/-- JS `s.includes(pat)`. -/
def containsSub (s pat : String) : Bool :=
  containsSubAux pat.data s.data

/-- Prefix test on strings (used to classify log lines). -/
def strStarts (s pre : String) : Bool :=
  pre.data.isPrefixOf s.data

/-- JS `s.endsWith(sfx)`, as a suffix test on the character lists. -/
def strEnds (s sfx : String) : Bool :=
  sfx.data.isSuffixOf s.data

/-- Whitespace characters relevant to the strings of this program. -/
def isWsChar (c : Char) : Bool :=
  c = ' ' || c = '\t' || c = '\n' || c = '\r'

/-- JS `String.prototype.trim` (restricted to the whitespace that can occur here). -/
def jsTrim (s : String) : String :=
  ⟨((s.data.dropWhile isWsChar).reverse.dropWhile isWsChar).reverse⟩

/-- JS truthiness of an optional string: `null`/`undefined`/`''` are falsy. -/
def truthy : Option String → Bool
  | none => false
  | some s => s ≠ ""

/-- JS `a || b` on optional strings, defaulting to `''` (as in
`msg.message.conversation || msg.message.extendedTextMessage?.text || ''`). -/
def jsOrStr (a b : Option String) : String :=
  if truthy a then a.getD "" else if truthy b then b.getD "" else ""

/-! ## extractUserId (src/unnamed/part_001 lines 17-24)

```js
function extractUserId(remoteJid) {
    if (!remoteJid) return '';
    return remoteJid
        .replace('@s.whatsapp.net', '')
        .replace('@lid', '')
        .replace('@g.us', '');
}
```
`none` models `null`/`undefined`; `some ""` models the empty string. -/

def extractUserId (remoteJid : Option String) : String :=
  match remoteJid with
  | none => ""
  | some s =>
      if s = "" then ""
      else replaceFirst (replaceFirst (replaceFirst s "@s.whatsapp.net" "") "@lid" "") "@g.us" ""

/-! ## Connection supervisor (connection.update handler, start catch, logout) -/

/-- Fields of the `WhatsAppBot` instance relevant to the supervisor, plus the
externally observable resources it manipulates: whether the `auth_baileys`
credentials exist on disk (`credsPresent`), and the delays of the armed
`setTimeout(() => this.start(), d)` timers (`pendingStarts`) — the code never
stores or clears these timer handles. -/
structure BotState where
  connectionStatus : String
  currentQR : Option String
  reconnectAttempts : Nat
  isReconnecting : Bool
  hasSock : Bool
  credsPresent : Bool
  pendingStarts : List Nat
  deriving Repr, DecidableEq

/-- Observable side effects of one supervisor step. -/
inductive SupEffect where
  | clearSession
  | scheduleStart (delayMs : Nat)
  | transportLogout
  | sysLogStarted
  | armCleanupTimer
  | armFollowUpTimer
  deriving Repr, DecidableEq

/-- `this.maxReconnectAttempts` (constructor, line 32). -/
def maxReconnectAttempts : Nat := 3

/-- Baileys library constant `DisconnectReason.loggedOut` (the library is an
external collaborator; its documented value is 401). -/
def loggedOutCode : Nat := 401

/-- The status codes handled by the credential-rejection branch
(`statusCode === 405 || statusCode === 401 || statusCode === 403`, line 108). -/
def isCredCode (c : Option Nat) : Bool :=
  c = some 405 || c = some 401 || c = some 403

/-- Payload of one `connection.update` event: the handler looks at `qr`,
`connection` and `lastDisconnect?.error?.output?.statusCode` independently. -/
structure ConnUpdate where
  connection : Option String
  statusCode : Option Nat
  qr : Option String
  deriving Repr, DecidableEq

/-- The `connection.update` handler (lines 90-139), as a function from the
bot state and the event payload to the new state and the emitted effects. -/
def onConnectionUpdate (s : BotState) (u : ConnUpdate) : BotState × List SupEffect :=
  let s :=
    match u.qr with
    | some q => { s with currentQR := some q, connectionStatus := "connecting" }
    | none => s
  if u.connection = some "close" then
    let s := { s with connectionStatus := "disconnected" }
    let shouldReconnect := u.statusCode ≠ some loggedOutCode
    if isCredCode u.statusCode then
      let s := { s with reconnectAttempts := s.reconnectAttempts + 1 }
      if s.reconnectAttempts > maxReconnectAttempts then
        ({ s with isReconnecting := false }, [])
      else
        ({ s with credsPresent := false, isReconnecting := false,
                  pendingStarts := s.pendingStarts ++ [5000] },
         [SupEffect.clearSession, SupEffect.scheduleStart 5000])
    else if shouldReconnect && u.statusCode ≠ some loggedOutCode then
      ({ s with reconnectAttempts := 0, isReconnecting := false,
                pendingStarts := s.pendingStarts ++ [5000] },
       [SupEffect.scheduleStart 5000])
    else
      ({ s with isReconnecting := false }, [])
  else if u.connection = some "open" then
    ({ s with currentQR := none, connectionStatus := "connected",
              reconnectAttempts := 0, isReconnecting := false },
     [SupEffect.sysLogStarted, SupEffect.armCleanupTimer, SupEffect.armFollowUpTimer])
  else
    (s, [])

/-- The `catch` block of `start()` (lines 299-308): reset the reentrancy
guard, and retry while the pre-increment counter is below the maximum. -/
def startCatch (s : BotState) : BotState × List SupEffect :=
  let s := { s with isReconnecting := false }
  if s.reconnectAttempts < maxReconnectAttempts then
    ({ s with reconnectAttempts := s.reconnectAttempts + 1,
              pendingStarts := s.pendingStarts ++ [5000] },
     [SupEffect.scheduleStart 5000])
  else
    (s, [])

/-- `WhatsAppBot.logout` (lines 392-417): reset status fields, transport
logout when a socket exists, delete the credential directory, then schedule a
restart after 2000 ms. No pending timer is ever cancelled (no handle is kept). -/
def logoutFn (s : BotState) : BotState × List SupEffect :=
  let s := { s with connectionStatus := "disconnected", currentQR := none,
                    reconnectAttempts := 0, isReconnecting := false }
  let logoutEffs := if s.hasSock then [SupEffect.transportLogout] else []
  let s := { s with credsPresent := false }
  ({ s with pendingStarts := s.pendingStarts ++ [2000] },
   logoutEffs ++ [SupEffect.clearSession, SupEffect.scheduleStart 2000])

/-- One supervisor-level event: a transport `connection.update`, a failure of
the `start()` body (its catch block), or an explicit `logout()` call. -/
inductive SupEvent where
  | update (u : ConnUpdate)
  | startFail
  | logoutEv
  deriving Repr, DecidableEq

/-- One supervisor step. -/
def supStep (s : BotState) : SupEvent → BotState × List SupEffect
  | SupEvent.update u => onConnectionUpdate s u
  | SupEvent.startFail => startCatch s
  | SupEvent.logoutEv => logoutFn s

/-! ## Delivery-status tracking (messages.update handler, lines 142-180) -/

/-- Rank of a stored delivery status (spec §3: sent=1, delivered=2, read=3). -/
def statusRank : String → Nat
  | "sent" => 1
  | "delivered" => 2
  | "read" => 3
  | _ => 0

/-- The code→name mapping of the handler: transport status 4 is `read`,
2 is `delivered`, 1 is `sent`; 3 (and anything else) yields no status. -/
def mapStatusCode (c : Option Nat) : Option String :=
  if c = some 4 then some "read"
  else if c = some 2 then some "delivered"
  else if c = some 1 then some "sent"
  else none

/-- The persisted messageId → status map owned by the logging collaborator. -/
def StatusStore : Type := String → Option String

/-- Modelled from the spec: `logger.updateMessageStatus(messageId, status)` —
the logging collaborator is external to the source under review; spec §4.4
states it "applies the update only if rank(new) ≥ rank(stored) for that
messageId; otherwise the update is discarded silently", and that no status
exists for a messageId until the first qualifying update. -/
def updateMessageStatus (store : StatusStore) (messageId status : String) : StatusStore :=
  match store messageId with
  | none => fun id => if id = messageId then some status else store id
  | some old =>
      if statusRank old ≤ statusRank status then
        fun id => if id = messageId then some status else store id
      else store

/-- Processing of one element of a `messages.update` batch (lines 143-179):
map the transport code; if a status was recognised and the messageId is
truthy, forward to the logging collaborator. -/
def onMessageUpdate (store : StatusStore) (messageId : Option String) (code : Option Nat) :
    StatusStore :=
  match mapStatusCode code with
  | none => store
  | some st =>
      if truthy messageId then updateMessageStatus store (messageId.getD "") st
      else store

/-- Rank of an optional stored status (`none` = no status yet). -/
def rankOpt : Option String → Nat
  | none => 0
  | some st => statusRank st

/-! ## Message dispatcher (messages.upsert handler, processMessage, handleError) -/

/-- `msg.key` of an inbound Baileys message. -/
structure MsgKey where
  remoteJid : String
  fromMe : Bool
  id : Option String
  senderPn : Option String
  deriving Repr, DecidableEq

/-- An inbound message as the handler reads it: `hasMessage` is the
truthiness of `msg.message`; `conversation` and `extendedText` are
`msg.message.conversation` and `msg.message.extendedTextMessage?.text`. -/
structure WAMessage where
  key : MsgKey
  pushName : Option String
  hasMessage : Bool
  conversation : Option String
  extendedText : Option String
  deriving Repr, DecidableEq

/-- Responses of the external collaborators consulted during one dispatch
cycle, and the failure behaviour of the fallible ones. `groupMeta j` is the
result of `sock.groupMetadata(j)`: `none` when the call throws, otherwise the
(possibly empty/undefined, hence optional) `subject` field. -/
structure Env where
  humanMode : String → Bool
  supportMode : String → Bool
  groupsAIEnabled : Bool
  individualAIEnabled : Bool
  hasActiveFollowUp : String → Bool
  groupMeta : String → Option (Option String)
  aiResponse : String
  aiFails : Bool
  aiErrorMessage : String
  sendFails : Bool
  sendErrorMessage : String
  sentMessageId : Option String

/-- Observable actions issued by one dispatch cycle, in program order.
`log` mirrors `logger.log(kind, text, userId, displayName, isGroup, ..., messageId)`
(omitted arguments are `none`/`false`); the other constructors mirror the
named collaborator calls. -/
inductive BotAction where
  | log (kind text : String) (userId displayName : Option String)
        (isGroup : Bool) (messageId : Option String)
  | updateMessageStatusAct (messageId status : String)
  | setMode (userId mode : String)
  | updateSessionMode (userId chatId mode : String)
  | addMessage (userId role text chatId : String)
  | getSession (userId chatId : String)
  | analyzeResponse (userId text : String)
  | cancelFollowUp (userId reason : String)
  | aiCall (userId : String)
  | sendMessage (target text : String)
  deriving Repr, DecidableEq

/-- The support-handoff control marker embedded in AI responses
(`'\x7b\x7bACTIVAR_SOPORTE\x7d\x7d'` in the source). -/
def supportMarker : String := "\x7b\x7bACTIVAR_SOPORTE\x7d\x7d"

/-- `WhatsAppBot.processMessage(userId, userMessage, chatId)` (lines 311-352).
Returns the actions performed and `some response` on success, or the actions
performed up to the AI failure and `none` when `aiService.generateResponse`
throws (the prompt assembly via `promptLoader.getPrompt` and
`sessionManager.getMessages` reads no tracked state and issues no tracked
action). -/
def processMessage (env : Env) (userId userMessage chatId : String) :
    List BotAction × Option String :=
  let acts := [BotAction.addMessage userId "user" userMessage chatId,
               BotAction.aiCall userId]
  if env.aiFails then (acts, none)
  else
    let aiResponse := env.aiResponse
    if containsSub aiResponse supportMarker then
      let cleanResponse := jsTrim (replaceFirst aiResponse supportMarker "")
      (acts ++ [BotAction.setMode userId "support",
                BotAction.updateSessionMode userId chatId "support",
                BotAction.addMessage userId "assistant" cleanResponse chatId,
                BotAction.log "SYSTEM"
                  ("Modo SOPORTE activado automáticamente para " ++ userId)
                  none none false none],
       some cleanResponse)
    else
      (acts ++ [BotAction.addMessage userId "assistant" aiResponse chatId],
       some aiResponse)

/-- The user-facing apology chosen by `handleError` (lines 360-364) from the
error text. -/
def apologyText (errMsg : String) : String :=
  if containsSub errMsg "autenticación" || containsSub errMsg "API key" then
    "Error de configuración del bot. Por favor, contacta al administrador."
  else "Lo siento, ocurrió un error. Inténtalo de nuevo."

/-- `WhatsAppBot.handleError(error, message)` (lines 354-372): choose the
user-facing apology from the error text, send it, and log the original error;
if that send itself throws, both the send and the ERROR log are skipped. -/
def handleError (env : Env) (errMsg : String) (msg : WAMessage) : List BotAction :=
  let fromJid := msg.key.remoteJid
  let userId := extractUserId (some fromJid)
  if env.sendFails then []
  else [BotAction.sendMessage fromJid (apologyText errMsg),
        BotAction.log "ERROR" errMsg (some userId) none false none]

/-- `from.endsWith('@g.us')` (line 202). -/
def msgIsGroup (msg : WAMessage) : Bool :=
  strEnds msg.key.remoteJid "@g.us"

/-- The message text (line 205-207). -/
def msgConversation (msg : WAMessage) : String :=
  jsOrStr msg.conversation msg.extendedText

/-- `userId` resolution (lines 218-241): the group id for groups; otherwise
`extractUserId(msg.key.senderPn || from)`. -/
def msgUserId (msg : WAMessage) : String :=
  if msgIsGroup msg then replaceFirst msg.key.remoteJid "@g.us" ""
  else extractUserId (some (jsOrStr msg.key.senderPn (some msg.key.remoteJid)))

/-- `userName` resolution: `msg.pushName || 'Participante'` in groups,
`msg.pushName || userId` in direct chats. -/
def msgUserName (msg : WAMessage) : String :=
  if msgIsGroup msg then (if truthy msg.pushName then msg.pushName.getD "" else "Participante")
  else (if truthy msg.pushName then msg.pushName.getD "" else msgUserId msg)

/-- `groupName` resolution (lines 221-230): default `'Grupo'` when the
metadata fetch throws, else `subject || 'Grupo sin nombre'`. -/
def msgGroupName (env : Env) (msg : WAMessage) : String :=
  match env.groupMeta msg.key.remoteJid with
  | none => "Grupo"
  | some subj => if truthy subj then subj.getD "" else "Grupo sin nombre"

/-- Display name used for the receipt and outbound logs:
group label for groups, user name otherwise. -/
def msgDisplayName (env : Env) (msg : WAMessage) : String :=
  if msgIsGroup msg then msgGroupName env msg else msgUserName msg

/-- The body of the `messages.upsert` handler for one message (lines 184-296),
including its try/catch: actions performed before a throw are kept, then
`handleError`'s actions follow. -/
def dispatchOne (env : Env) (msg : WAMessage) : List BotAction :=
  if !msg.hasMessage then []
  else if msg.key.fromMe then []
  else
    let fromJid := msg.key.remoteJid
    let isGroup := msgIsGroup msg
    let conversation := msgConversation msg
    if conversation = "" ∨ jsTrim conversation = "" then []
    else
      let userId := msgUserId msg
      let userName := msgUserName msg
      let groupName := msgGroupName env msg
      let acts0 := [BotAction.log "cliente" conversation (some userId)
                      (some (if isGroup then groupName else userName)) isGroup none]
      if env.humanMode userId || env.supportMode userId then
        acts0 ++ [BotAction.log "SYSTEM"
          ("Mensaje ignorado - Modo "
            ++ (if env.supportMode userId then "SOPORTE" else "HUMANO")
            ++ " activo para " ++ userName ++ " (" ++ userId ++ ")")
          none none false none]
      else if isGroup && !env.groupsAIEnabled then
        acts0 ++ [BotAction.log "SYSTEM"
          ("Mensaje de grupo ignorado - IA en grupos desactivada (" ++ groupName ++ ")")
          none none false none]
      else if !isGroup && !env.individualAIEnabled then
        acts0 ++ [BotAction.log "SYSTEM"
          ("Mensaje individual ignorado - IA individual desactivada (" ++ userName ++ ")")
          none none false none]
      else
        let acts1 := acts0 ++
          (if env.hasActiveFollowUp userId then
            [BotAction.cancelFollowUp userId "Cliente respondió"] else [])
        let pm := processMessage env userId conversation fromJid
        match pm.2 with
        | none => acts1 ++ pm.1 ++ handleError env env.aiErrorMessage msg
        | some response =>
            let acts2 := acts1 ++ pm.1 ++
              [BotAction.getSession userId fromJid,
               BotAction.analyzeResponse userId conversation]
            if env.sendFails then acts2 ++ handleError env env.sendErrorMessage msg
            else
              acts2 ++ [BotAction.sendMessage fromJid response,
                        BotAction.log "bot" response (some userId)
                          (some (if isGroup then groupName else userName)) isGroup
                          env.sentMessageId]

/-- The `messages.upsert` handler reads only `m.messages[0]`. -/
def onMessagesUpsert (env : Env) (msgs : List WAMessage) : List BotAction :=
  match msgs with
  | [] => []
  | msg :: _ => dispatchOne env msg

/-! ## Action classifiers and spec-side characterizations -/

/-- True exactly for outbound `sendMessage` actions. -/
def isSendAct : BotAction → Bool
  | BotAction.sendMessage _ _ => true
  | _ => false

/-- True exactly for calls to the AI-processing collaborator. -/
def isAICallAct : BotAction → Bool
  | BotAction.aiCall _ => true
  | _ => false

/-- True exactly for writes to the per-identity mode store
(`humanModeManager.setMode`). -/
def isSetModeAct : BotAction → Bool
  | BotAction.setMode _ _ => true
  | _ => false

/-- True exactly for writes to the conversation-session store
(`sessionManager.addMessage` / `sessionManager.updateSessionMode`). -/
def isSessionWriteAct : BotAction → Bool
  | BotAction.addMessage _ _ _ _ => true
  | BotAction.updateSessionMode _ _ _ => true
  | _ => false

/-- True exactly for the mode-change audit entry
(`logger.log('SYSTEM', 'Modo SOPORTE activado automáticamente para ...')`). -/
def isModeChangeLog : BotAction → Bool
  | BotAction.log kind t _ _ _ _ => kind = "SYSTEM" && strStarts t "Modo SOPORTE"
  | _ => false

/-- Spec-side characterization of how one supervisor event updates
`ReconnectCounter` (the amended discipline): incremented by one on every
credential-rejection close and on a `start()` failure below the maximum;
reset to zero on every other close, on the Connected transition, and on
explicit logout; untouched otherwise. -/
def counterAfter (s : BotState) : SupEvent → Nat
  | SupEvent.update u =>
      if u.connection = some "close" then
        (if isCredCode u.statusCode then s.reconnectAttempts + 1 else 0)
      else if u.connection = some "open" then 0
      else s.reconnectAttempts
  | SupEvent.startFail =>
      if s.reconnectAttempts < maxReconnectAttempts then s.reconnectAttempts + 1
      else s.reconnectAttempts
  | SupEvent.logoutEv => 0

/-! ## Concrete fixtures used by witnesses and counterexamples -/

/-- A supervisor state that has already consumed its three credential retries. -/
def stExhausted : BotState :=
  { connectionStatus := "connected", currentQR := none, reconnectAttempts := 3,
    isReconnecting := true, hasSock := true, credsPresent := true, pendingStarts := [] }

/-- A supervisor state midway through the credential-retry budget. -/
def stMidBudget : BotState :=
  { connectionStatus := "connected", currentQR := none, reconnectAttempts := 2,
    isReconnecting := true, hasSock := true, credsPresent := true, pendingStarts := [] }

/-- A fresh connected supervisor state. -/
def stFresh : BotState :=
  { connectionStatus := "connected", currentQR := none, reconnectAttempts := 0,
    isReconnecting := true, hasSock := true, credsPresent := true, pendingStarts := [] }

/-- A supervisor state with one credential retry consumed. -/
def stOneAttempt : BotState :=
  { connectionStatus := "disconnected", currentQR := none, reconnectAttempts := 1,
    isReconnecting := false, hasSock := true, credsPresent := true, pendingStarts := [] }

/-- A disconnected state with a reconnect timer already armed. -/
def stPendingTimer : BotState :=
  { connectionStatus := "disconnected", currentQR := some "qr-data",
    reconnectAttempts := 1, isReconnecting := false, hasSock := true,
    credsPresent := false, pendingStarts := [5000] }

/-- Baseline collaborator environment: AI mode everywhere, both audiences
enabled, all calls succeed. -/
def envBase : Env :=
  { humanMode := fun _ => false, supportMode := fun _ => false,
    groupsAIEnabled := true, individualAIEnabled := true,
    hasActiveFollowUp := fun _ => false, groupMeta := fun _ => none,
    aiResponse := "Hola, ¿en qué puedo ayudarte?", aiFails := false,
    aiErrorMessage := "fallo del modelo", sendFails := false,
    sendErrorMessage := "fallo de envío", sentMessageId := some "wamid.1" }

/-- A direct-chat inbound message. -/
def msgDirect : WAMessage :=
  { key := { remoteJid := "5215550001@s.whatsapp.net", fromMe := false,
             id := some "id1", senderPn := none },
    pushName := some "Ana", hasMessage := true,
    conversation := some "hola", extendedText := none }

/-- Environment whose identity is in HUMAN mode. -/
def envHuman : Env := { envBase with humanMode := fun _ => true }

/-- Environment whose AI response embeds the support marker twice. -/
def envDoubleMarker : Env := { envBase with aiResponse := supportMarker ++ supportMarker }

/-- Environment whose AI response embeds the support marker once. -/
def envOneMarker : Env :=
  { envBase with aiResponse := "Te comunico con un asesor. " ++ supportMarker }

/-- Environment whose AI collaborator throws. -/
def envAIFails : Env := { envBase with aiFails := true }

/-! # Theorems -/

/-! ## General lemmas about the JS string primitives -/

theorem isPrefixOf_self (l : List Char) : l.isPrefixOf l = true := by
  induction l with
  | nil => rfl
  | cons c cs ih => simp [List.isPrefixOf_cons₂, ih]

theorem isPrefixOf_append_left {p a : List Char} (b : List Char)
    (h : p.isPrefixOf a = true) : p.isPrefixOf (a ++ b) = true := by
  induction p generalizing a with
  | nil => simp [List.isPrefixOf]
  | cons x xs ih =>
      cases a with
      | nil => simp [List.isPrefixOf] at h
      | cons y ys =>
          simp only [List.isPrefixOf_cons₂, Bool.and_eq_true] at h
          simp only [List.cons_append, List.isPrefixOf_cons₂, Bool.and_eq_true]
          exact ⟨h.1, ih h.2⟩

theorem replaceFirstAux_of_not_contains {pat repl l : List Char}
    (h : containsSubAux pat l = false) : replaceFirstAux pat repl l = l := by
  induction l with
  | nil =>
      simp only [containsSubAux] at h
      simp [replaceFirstAux, h]
  | cons c cs ih =>
      simp only [containsSubAux, Bool.or_eq_false_iff] at h
      simp [replaceFirstAux, h.1, ih h.2]

theorem replaceFirstAux_strip (pat : List Char) (l : List Char)
    (H : ∀ q, q <:+ l → q ≠ [] → pat.isPrefixOf (q ++ pat) = false) :
    replaceFirstAux pat [] (l ++ pat) = l := by
  induction l with
  | nil =>
      cases pat with
      | nil => rfl
      | cons p ps =>
          simp only [List.nil_append, replaceFirstAux, isPrefixOf_self, if_true]
          simp [List.drop_length]
  | cons c cs ih =>
      have hpre : pat.isPrefixOf (c :: (cs ++ pat)) = false := by
        have := H (c :: cs) (List.suffix_refl _) (by simp)
        simpa using this
      have hcs : ∀ q, q <:+ cs → q ≠ [] → pat.isPrefixOf (q ++ pat) = false :=
        fun q hq hne => H q (hq.trans (List.suffix_cons c cs)) hne
      simp only [List.cons_append, replaceFirstAux, List.append_eq, hpre,
        Bool.false_eq_true, if_false]
      rw [ih hcs]

theorem isPrefixOf_at_cons_eq_false {pt : List Char} {c : Char} {rest : List Char}
    (hc : c ≠ '@') : ('@' :: pt).isPrefixOf (c :: rest) = false := by
  simp only [List.isPrefixOf_cons₂, Bool.and_eq_false_iff]
  left
  exact beq_eq_false_iff_ne.mpr (fun h => hc h.symm)

theorem containsSubAux_skip_no_at {pt : List Char} (l s : List Char)
    (hl : ∀ c ∈ l, c ≠ '@') :
    containsSubAux ('@' :: pt) (l ++ s) = containsSubAux ('@' :: pt) s := by
  induction l with
  | nil => rfl
  | cons c cs ih =>
      have hc : c ≠ '@' := hl c (by simp)
      simp only [List.cons_append, containsSubAux,
        isPrefixOf_at_cons_eq_false hc, Bool.false_or]
      exact ih (fun x hx => hl x (by simp [hx]))

theorem containsSubAux_of_no_at {pt : List Char} (l : List Char)
    (hl : ∀ c ∈ l, c ≠ '@') : containsSubAux ('@' :: pt) l = false := by
  have h := @containsSubAux_skip_no_at pt l [] hl
  simpa [containsSubAux] using h

theorem strip_cond_of_no_at {pt : List Char} (l : List Char)
    (hl : ∀ c ∈ l, c ≠ '@') :
    ∀ q, q <:+ l → q ≠ [] → ('@' :: pt).isPrefixOf (q ++ ('@' :: pt)) = false := by
  intro q hq hne
  cases q with
  | nil => exact absurd rfl hne
  | cons c cs =>
      have hc : c ≠ '@' := hl c (hq.subset (by simp))
      simp only [List.cons_append]
      exact isPrefixOf_at_cons_eq_false hc

theorem replaceFirst_strip_suffix (p sfx : String) (pt : List Char)
    (hsfx : sfx.data = '@' :: pt)
    (hat : ∀ c ∈ p.data, c ≠ '@') :
    replaceFirst (p ++ sfx) sfx "" = p := by
  apply String.ext
  show replaceFirstAux sfx.data [] ((p ++ sfx).data) = p.data
  rw [String.data_append, hsfx]
  exact replaceFirstAux_strip _ _ (strip_cond_of_no_at p.data hat)

theorem replaceFirst_noop (s pat : String) (h : containsSub s pat = false) :
    replaceFirst s pat "" = s := by
  apply String.ext
  show replaceFirstAux pat.data [] s.data = s.data
  exact replaceFirstAux_of_not_contains h

theorem containsSub_append_no_at (p s other : String) (pt : List Char)
    (hother : other.data = '@' :: pt)
    (hat : ∀ c ∈ p.data, c ≠ '@')
    (h : containsSubAux other.data s.data = false) :
    containsSub (p ++ s) other = false := by
  show containsSubAux other.data ((p ++ s).data) = false
  rw [String.data_append, hother, containsSubAux_skip_no_at _ _ hat, ← hother]
  exact h

theorem containsSub_no_at (p other : String) (pt : List Char)
    (hother : other.data = '@' :: pt)
    (hat : ∀ c ∈ p.data, c ≠ '@') :
    containsSub p other = false := by
  show containsSubAux other.data p.data = false
  rw [hother]
  exact containsSubAux_of_no_at _ hat

theorem append_sfx_ne_empty (p sfx : String) (pt : List Char)
    (hsfx : sfx.data = '@' :: pt) : p ++ sfx ≠ "" := by
  intro h
  have hd : (p ++ sfx).data = ([] : List Char) := by rw [h]
  rw [String.data_append, hsfx] at hd
  exact absurd (List.append_eq_nil.mp hd).2 (by simp)

/-! ## C10 — extractUserId totality and suffix handling -/

/-- C10 (counterexample): for the address `"1@lid2" ++ "@lid"` — which ends in
the linked-device suffix — `extractUserId` does NOT return the address with
that trailing suffix removed (`"1@lid2"`); JS `replace` removes the first
occurrence instead, yielding `"12@lid"`. -/
theorem C10_counterexample :
    extractUserId (some ("1@lid2" ++ "@lid")) = "12@lid" ∧
    extractUserId (some ("1@lid2" ++ "@lid")) ≠ "1@lid2" := by
  constructor
  · decide
  · decide

/-- C10 (amended): `extractUserId` is total; a `null`/`undefined` or empty
transport address yields the empty string; and for an address `p ++ sfx` whose
local part `p` contains no `'@'`, each of the three transport suffixes is
stripped exactly. (In general the function removes only the FIRST occurrence
of each suffix, so an address whose local part itself contains a suffix
occurrence is not merely stripped of its trailing suffix — see the
counterexample.) -/
theorem C10_extractUserId_amended (p sfx : String)
    (hat : ∀ c ∈ p.data, c ≠ '@')
    (hsfx : sfx = "@s.whatsapp.net" ∨ sfx = "@lid" ∨ sfx = "@g.us") :
    extractUserId none = "" ∧ extractUserId (some "") = "" ∧
    extractUserId (some (p ++ sfx)) = p := by
  refine ⟨rfl, rfl, ?_⟩
  have hwa : ("@s.whatsapp.net" : String).data = '@' :: "s.whatsapp.net".data := rfl
  have hli : ("@lid" : String).data = '@' :: "lid".data := rfl
  have hgu : ("@g.us" : String).data = '@' :: "g.us".data := rfl
  rcases hsfx with h1 | h1 | h1 <;> subst h1
  · have hne := append_sfx_ne_empty p _ _ hwa
    simp only [extractUserId, if_neg hne]
    rw [replaceFirst_strip_suffix p _ _ hwa hat,
        replaceFirst_noop p "@lid" (containsSub_no_at p _ _ hli hat),
        replaceFirst_noop p "@g.us" (containsSub_no_at p _ _ hgu hat)]
  · have hne := append_sfx_ne_empty p _ _ hli
    simp only [extractUserId, if_neg hne]
    rw [replaceFirst_noop (p ++ "@lid") "@s.whatsapp.net"
          (containsSub_append_no_at p _ _ _ hwa hat (by decide)),
        replaceFirst_strip_suffix p _ _ hli hat,
        replaceFirst_noop p "@g.us" (containsSub_no_at p _ _ hgu hat)]
  · have hne := append_sfx_ne_empty p _ _ hgu
    simp only [extractUserId, if_neg hne]
    rw [replaceFirst_noop (p ++ "@g.us") "@s.whatsapp.net"
          (containsSub_append_no_at p _ _ _ hwa hat (by decide)),
        replaceFirst_noop (p ++ "@g.us") "@lid"
          (containsSub_append_no_at p _ _ _ hli hat (by decide)),
        replaceFirst_strip_suffix p _ _ hgu hat]

/-- C10 (witness): the amended theorem applied to a realistic direct-chat
address. -/
theorem C10_witness :
    (∀ c ∈ ("5215550000" : String).data, c ≠ '@') ∧
    extractUserId (some ("5215550000" ++ "@s.whatsapp.net")) = "5215550000" :=
  ⟨by decide,
   (C10_extractUserId_amended "5215550000" "@s.whatsapp.net" (by decide)
      (Or.inl rfl)).2.2⟩

/-! ## C9 — delivery-status mapping and monotonicity -/

/-- C9: transport codes map to the three ranks (code 1 → sent (rank 1),
code 2 → delivered (rank 2), code 4 → read (rank 3)); the unrecognised
intermediate code 3 leaves the store untouched (and raises nothing — the
handler is total); a stored rank never decreases under any update; and the
scenario read(4), then delivered(2), then sent(1) for `"m1"` ends at `read`. -/
theorem C9_status_monotone :
    (mapStatusCode (some 1) = some "sent" ∧ statusRank "sent" = 1) ∧
    (mapStatusCode (some 2) = some "delivered" ∧ statusRank "delivered" = 2) ∧
    (mapStatusCode (some 4) = some "read" ∧ statusRank "read" = 3) ∧
    (∀ (store : StatusStore) (mid : Option String),
        onMessageUpdate store mid (some 3) = store) ∧
    (∀ (store : StatusStore) (mid : Option String) (code : Option Nat) (id : String),
        rankOpt (store id) ≤ rankOpt (onMessageUpdate store mid code id)) ∧
    ((onMessageUpdate (onMessageUpdate (onMessageUpdate (fun _ => none)
        (some "m1") (some 4)) (some "m1") (some 2)) (some "m1") (some 1)) "m1"
      = some "read") := by
  refine ⟨⟨rfl, rfl⟩, ⟨rfl, rfl⟩, ⟨rfl, rfl⟩, ?_, ?_, ?_⟩
  · intro store mid
    rfl
  · intro store mid code id
    unfold onMessageUpdate
    cases hm : mapStatusCode code with
    | none => exact Nat.le_refl _
    | some st =>
        by_cases ht : truthy mid = true
        · simp only [ht, if_true]
          unfold updateMessageStatus
          cases hs : store (mid.getD "") with
          | none =>
              by_cases hid : id = mid.getD ""
              · subst hid
                rw [hs]
                exact Nat.zero_le _
              · simp [hid]
          | some old =>
              by_cases hle : statusRank old ≤ statusRank st
              · simp only [hle, if_true]
                by_cases hid : id = mid.getD ""
                · subst hid
                  rw [hs]
                  simpa [rankOpt] using hle
                · simp [hid]
              · simp [hle]
        · simp [ht]
  · rfl

/-! ## C1 — credential-rejection closures -/

/-- C1 (counterexample): a credential-rejection close (401) arriving when the
counter already stands at 3 increments the counter to 4 and transitions to
the terminal failed condition WITHOUT destroying the persisted credentials
(no `clearSession`, credentials still present) — so "destroys the persisted
credentials ... for every connection-close event carrying a
credential-rejection status code" is false. -/
theorem C1_counterexample :
    (supStep stExhausted (SupEvent.update ⟨some "close", some 401, none⟩)).1.reconnectAttempts = 4 ∧
    (supStep stExhausted (SupEvent.update ⟨some "close", some 401, none⟩)).1.credsPresent = true ∧
    (supStep stExhausted (SupEvent.update ⟨some "close", some 401, none⟩)).2 = [] := by
  decide

/-- C1 (amended): on every close with a credential-rejection code the counter
is incremented exactly once; if the incremented counter exceeds the maximum
of 3 the supervisor ends in the terminal failed condition (disconnected, no
effect, no new reconnect timer, credentials NOT destroyed); otherwise it
destroys the persisted credentials and schedules exactly one reconnect after
the fixed 5000 ms delay. -/
theorem C1_cred_close_amended (s : BotState) (c : Option Nat) (q : Option String)
    (h : isCredCode c = true) :
    (supStep s (SupEvent.update ⟨some "close", c, q⟩)).1.reconnectAttempts
        = s.reconnectAttempts + 1 ∧
    (s.reconnectAttempts + 1 > maxReconnectAttempts →
      (supStep s (SupEvent.update ⟨some "close", c, q⟩)).2 = [] ∧
      (supStep s (SupEvent.update ⟨some "close", c, q⟩)).1.credsPresent = s.credsPresent ∧
      (supStep s (SupEvent.update ⟨some "close", c, q⟩)).1.pendingStarts = s.pendingStarts ∧
      (supStep s (SupEvent.update ⟨some "close", c, q⟩)).1.connectionStatus = "disconnected" ∧
      (supStep s (SupEvent.update ⟨some "close", c, q⟩)).1.isReconnecting = false) ∧
    (s.reconnectAttempts + 1 ≤ maxReconnectAttempts →
      (supStep s (SupEvent.update ⟨some "close", c, q⟩)).2
          = [SupEffect.clearSession, SupEffect.scheduleStart 5000] ∧
      (supStep s (SupEvent.update ⟨some "close", c, q⟩)).1.credsPresent = false ∧
      (supStep s (SupEvent.update ⟨some "close", c, q⟩)).1.pendingStarts
          = s.pendingStarts ++ [5000]) := by
  simp only [supStep, onConnectionUpdate, h, if_true, reduceCtorEq]
  cases q <;>
    · simp only []
      by_cases hgt : s.reconnectAttempts + 1 > maxReconnectAttempts
      · simp [hgt]
      · simp [hgt]

/-- C1 (witness): the amended theorem at a fresh state and code 403. -/
theorem C1_witness :
    isCredCode (some 403) = true ∧
    ((supStep stFresh (SupEvent.update ⟨some "close", some 403, none⟩)).1.reconnectAttempts
        = stFresh.reconnectAttempts + 1 ∧
     (stFresh.reconnectAttempts + 1 > maxReconnectAttempts →
       (supStep stFresh (SupEvent.update ⟨some "close", some 403, none⟩)).2 = [] ∧
       (supStep stFresh (SupEvent.update ⟨some "close", some 403, none⟩)).1.credsPresent = stFresh.credsPresent ∧
       (supStep stFresh (SupEvent.update ⟨some "close", some 403, none⟩)).1.pendingStarts = stFresh.pendingStarts ∧
       (supStep stFresh (SupEvent.update ⟨some "close", some 403, none⟩)).1.connectionStatus = "disconnected" ∧
       (supStep stFresh (SupEvent.update ⟨some "close", some 403, none⟩)).1.isReconnecting = false) ∧
     (stFresh.reconnectAttempts + 1 ≤ maxReconnectAttempts →
       (supStep stFresh (SupEvent.update ⟨some "close", some 403, none⟩)).2
           = [SupEffect.clearSession, SupEffect.scheduleStart 5000] ∧
       (supStep stFresh (SupEvent.update ⟨some "close", some 403, none⟩)).1.credsPresent = false ∧
       (supStep stFresh (SupEvent.update ⟨some "close", some 403, none⟩)).1.pendingStarts
           = stFresh.pendingStarts ++ [5000])) :=
  ⟨by decide, C1_cred_close_amended stFresh (some 403) none (by decide)⟩

/-! ## C2 — transient (non-credential) closures -/

/-- C2 (counterexample): a transient close (code 428, neither the logout code
nor a credential-rejection code) arriving with the counter at 2 RESETS the
counter to 0 — it does not leave it unchanged as the claim states. -/
theorem C2_counterexample :
    isCredCode (some 428) = false ∧
    some 428 ≠ some loggedOutCode ∧
    stMidBudget.reconnectAttempts = 2 ∧
    (supStep stMidBudget (SupEvent.update ⟨some "close", some 428, none⟩)).1.reconnectAttempts = 0 ∧
    (supStep stMidBudget (SupEvent.update ⟨some "close", some 428, none⟩)).2
      = [SupEffect.scheduleStart 5000] := by
  decide

/-- C2 (amended): on every close whose status code is not a
credential-rejection code (the explicit-logout code 401 is itself in the
credential set, so this covers exactly the transient failures) the supervisor
schedules exactly one reconnect after the fixed 5000 ms delay, leaves the
persisted credentials untouched, and RESETS ReconnectCounter to 0 — thereby
replenishing, rather than merely preserving, the credential-retry budget;
transient retries remain unbounded. -/
theorem C2_transient_close_amended (s : BotState) (c : Option Nat) (q : Option String)
    (h : isCredCode c = false) :
    (supStep s (SupEvent.update ⟨some "close", c, q⟩)).2 = [SupEffect.scheduleStart 5000] ∧
    (supStep s (SupEvent.update ⟨some "close", c, q⟩)).1.reconnectAttempts = 0 ∧
    (supStep s (SupEvent.update ⟨some "close", c, q⟩)).1.credsPresent = s.credsPresent ∧
    (supStep s (SupEvent.update ⟨some "close", c, q⟩)).1.pendingStarts
        = s.pendingStarts ++ [5000] := by
  have hne : c ≠ some loggedOutCode := by
    intro hc
    subst hc
    simp [isCredCode, loggedOutCode] at h
  simp only [supStep, onConnectionUpdate, h, Bool.false_eq_true, if_false,
    reduceCtorEq]
  cases q <;> simp [hne]

/-- C2 (witness): the amended theorem at a one-attempt state and code 428. -/
theorem C2_witness :
    isCredCode (some 428) = false ∧
    ((supStep stOneAttempt (SupEvent.update ⟨some "close", some 428, none⟩)).2
        = [SupEffect.scheduleStart 5000] ∧
     (supStep stOneAttempt (SupEvent.update ⟨some "close", some 428, none⟩)).1.reconnectAttempts = 0 ∧
     (supStep stOneAttempt (SupEvent.update ⟨some "close", some 428, none⟩)).1.credsPresent = stOneAttempt.credsPresent ∧
     (supStep stOneAttempt (SupEvent.update ⟨some "close", some 428, none⟩)).1.pendingStarts
        = stOneAttempt.pendingStarts ++ [5000]) :=
  ⟨by decide, C2_transient_close_amended stOneAttempt (some 428) none (by decide)⟩

/-! ## C3 — the ReconnectCounter update discipline -/

/-- C3 (counterexample): the counter is reset to 0 by a transient close (code
500) — an event that is neither a credential-rejection close nor a Connected
transition — contradicting "reset to 0 exactly when the connection
transitions to Connected". -/
theorem C3_counterexample :
    stMidBudget.reconnectAttempts = 2 ∧
    (supStep stMidBudget (SupEvent.update ⟨some "close", some 500, none⟩)).1.reconnectAttempts = 0 ∧
    isCredCode (some 500) = false ∧
    (supStep stMidBudget SupEvent.startFail).1.reconnectAttempts = 3 := by
  decide

/-- C3 (amended): over every supervisor step the counter follows
`counterAfter`: it is incremented by one on credential-rejection closes AND on
`start()` failures below the maximum, reset to 0 on transient closes, on the
Connected transition AND on explicit logout, and untouched otherwise (in
particular it is a `Nat`, hence non-negative). -/
theorem C3_counter_discipline_amended (s : BotState) (e : SupEvent) :
    (supStep s e).1.reconnectAttempts = counterAfter s e := by
  cases e with
  | update u =>
      rcases u with ⟨conn, code, q⟩
      simp only [supStep, onConnectionUpdate, counterAfter]
      cases q <;>
        · simp only []
          by_cases hclose : conn = some "close"
          · subst hclose
            simp only [if_true, reduceIte]
            by_cases hcred : isCredCode code = true
            · simp only [hcred, if_true]
              by_cases hgt : s.reconnectAttempts + 1 > maxReconnectAttempts
              · simp [hgt]
              · simp [hgt]
            · have hne : code ≠ some loggedOutCode := by
                intro hc
                subst hc
                simp [isCredCode, loggedOutCode] at hcred
              simp [hcred, hne]
          · simp only [hclose, if_false, reduceIte]
            by_cases hopen : conn = some "open"
            · subst hopen
              simp
            · simp [hclose, hopen]
  | startFail =>
      simp only [supStep, startCatch, counterAfter]
      by_cases hlt : s.reconnectAttempts < maxReconnectAttempts
      · simp [hlt]
      · simp [hlt]
  | logoutEv => rfl

/-! ## C6 — explicit logout -/

/-- C6 (counterexample): logout invoked while a reconnect timer is pending
leaves that timer armed (the armed-start-timer list goes from `[5000]` to
`[5000, 2000]`, not to `[2000]`): no cancellation of the pending scheduled
reconnect ever happens — the code keeps no timer handle. -/
theorem C6_counterexample :
    stPendingTimer.pendingStarts = [5000] ∧
    (supStep stPendingTimer SupEvent.logoutEv).1.pendingStarts = [5000, 2000] ∧
    (supStep stPendingTimer SupEvent.logoutEv).1.pendingStarts ≠ [2000] := by
  decide

/-- C6 (amended): logout clears the PairingChallenge, resets ReconnectCounter
to 0, and purges the persisted credentials, and only then schedules the
restart (the `clearSession` effect precedes the 2000 ms `scheduleStart` in
the effect list) — but it does NOT cancel a pending scheduled reconnect:
every previously armed start timer stays armed. -/
theorem C6_logout_amended (s : BotState) :
    (supStep s SupEvent.logoutEv).1.currentQR = none ∧
    (supStep s SupEvent.logoutEv).1.reconnectAttempts = 0 ∧
    (supStep s SupEvent.logoutEv).1.credsPresent = false ∧
    (supStep s SupEvent.logoutEv).1.isReconnecting = false ∧
    (supStep s SupEvent.logoutEv).1.connectionStatus = "disconnected" ∧
    (supStep s SupEvent.logoutEv).2
      = (if s.hasSock then [SupEffect.transportLogout] else [])
        ++ [SupEffect.clearSession, SupEffect.scheduleStart 2000] ∧
    (supStep s SupEvent.logoutEv).1.pendingStarts = s.pendingStarts ++ [2000] := by
  simp [supStep, logoutFn]

/-! ## C7 — HUMAN/SUPPORT mode suppression -/

/-- C7: for an inbound message that reaches dispatch (has content, not a
self-echo, non-empty text) whose identity is in HUMAN or SUPPORT mode, the
cycle is exactly: the receipt log (before any mode decision), then the
suppression note — and zero outbound sends. -/
theorem C7_mode_suppression (env : Env) (msg : WAMessage)
    (h1 : msg.hasMessage = true) (h2 : msg.key.fromMe = false)
    (h3 : jsTrim (msgConversation msg) ≠ "")
    (h4 : env.humanMode (msgUserId msg) = true ∨ env.supportMode (msgUserId msg) = true) :
    dispatchOne env msg =
      [BotAction.log "cliente" (msgConversation msg) (some (msgUserId msg))
         (some (msgDisplayName env msg)) (msgIsGroup msg) none,
       BotAction.log "SYSTEM"
         ("Mensaje ignorado - Modo "
           ++ (if env.supportMode (msgUserId msg) then "SOPORTE" else "HUMANO")
           ++ " activo para " ++ msgUserName msg ++ " (" ++ msgUserId msg ++ ")")
         none none false none] ∧
    (dispatchOne env msg).countP isSendAct = 0 := by
  have h0 : ¬(msgConversation msg = "" ∨ jsTrim (msgConversation msg) = "") := by
    rintro (he | he)
    · exact h3 (by rw [he]; rfl)
    · exact h3 he
  have hmain : dispatchOne env msg =
      [BotAction.log "cliente" (msgConversation msg) (some (msgUserId msg))
         (some (msgDisplayName env msg)) (msgIsGroup msg) none,
       BotAction.log "SYSTEM"
         ("Mensaje ignorado - Modo "
           ++ (if env.supportMode (msgUserId msg) then "SOPORTE" else "HUMANO")
           ++ " activo para " ++ msgUserName msg ++ " (" ++ msgUserId msg ++ ")")
         none none false none] := by
    unfold dispatchOne
    rcases h4 with hH | hS
    · simp [h1, h2, h0, hH, msgDisplayName]
    · simp [h1, h2, h0, hS, msgDisplayName]
  refine ⟨hmain, ?_⟩
  rw [hmain]
  simp [List.countP_cons, isSendAct]

/-- C7 (witness): a direct message in HUMAN mode yields exactly the receipt
log followed by the suppression note, and zero sends. -/
theorem C7_witness :
    (envHuman.humanMode (msgUserId msgDirect) = true ∨
     envHuman.supportMode (msgUserId msgDirect) = true) ∧
    (dispatchOne envHuman msgDirect =
      [BotAction.log "cliente" (msgConversation msgDirect) (some (msgUserId msgDirect))
         (some (msgDisplayName envHuman msgDirect)) (msgIsGroup msgDirect) none,
       BotAction.log "SYSTEM"
         ("Mensaje ignorado - Modo "
           ++ (if envHuman.supportMode (msgUserId msgDirect) then "SOPORTE" else "HUMANO")
           ++ " activo para " ++ msgUserName msgDirect ++ " (" ++ msgUserId msgDirect ++ ")")
         none none false none] ∧
     (dispatchOne envHuman msgDirect).countP isSendAct = 0) :=
  ⟨Or.inl rfl,
   C7_mode_suppression envHuman msgDirect rfl rfl (by decide) (Or.inl rfl)⟩

/-! ## C8 — one AI round trip per dispatched message -/

/-- C8: every inbound message event that passes the filter chain (content
present, not self-echo, non-empty text, mode AI, audience AI enabled)
triggers exactly one call to the AI-processing collaborator — regardless of
whether a follow-up was pending, whether the AI call fails, whether the
response embeds the handoff marker, and whether the send fails. -/
theorem C8_one_ai_call (env : Env) (msg : WAMessage)
    (h1 : msg.hasMessage = true) (h2 : msg.key.fromMe = false)
    (h3 : jsTrim (msgConversation msg) ≠ "")
    (h4 : env.humanMode (msgUserId msg) = false)
    (h5 : env.supportMode (msgUserId msg) = false)
    (h6 : env.groupsAIEnabled = true) (h7 : env.individualAIEnabled = true) :
    (dispatchOne env msg).countP isAICallAct = 1 := by
  have h0 : ¬(msgConversation msg = "" ∨ jsTrim (msgConversation msg) = "") := by
    rintro (he | he)
    · exact h3 (by rw [he]; rfl)
    · exact h3 he
  by_cases hA : env.aiFails <;>
    by_cases hM : containsSub env.aiResponse supportMarker = true <;>
      by_cases hFup : env.hasActiveFollowUp (msgUserId msg) = true <;>
        by_cases hSd : env.sendFails <;>
          simp [dispatchOne, processMessage, handleError, h1, h2, h0, h4, h5,
            h6, h7, hA, hM, hFup, hSd, isAICallAct,
            List.countP_append, List.countP_cons]

/-- C8 (witness): the baseline environment and a direct message yield exactly
one AI call. -/
theorem C8_witness :
    envBase.humanMode (msgUserId msgDirect) = false ∧
    (dispatchOne envBase msgDirect).countP isAICallAct = 1 :=
  ⟨rfl, C8_one_ai_call envBase msgDirect rfl rfl (by decide) rfl rfl rfl rfl⟩

/-! ## C5 — AI-processing failure handling -/

/-- C5 (counterexample): under an AI failure the dispatch cycle has already
appended the inbound user message to the conversation session
(`sessionManager.addMessage(userId, 'user', ...)` runs before the AI call and
is never rolled back), so the conversation-session state is NOT left
unchanged by the cycle. -/
theorem C5_counterexample :
    BotAction.addMessage "5215550001" "user" "hola" "5215550001@s.whatsapp.net"
      ∈ dispatchOne envAIFails msgDirect ∧
    (dispatchOne envAIFails msgDirect).countP isSessionWriteAct = 1 := by
  decide

/-- C5 (amended): when the AI-processing collaborator raises during a
dispatched cycle (and the apology send itself succeeds), exactly one reply —
the apology chosen from the error text — is sent to the originating chat, the
original error detail is logged, the mode state is untouched (no `setMode`),
and the only conversation-session write of the cycle is the inbound user
message appended before the AI call (no assistant message, no session-mode
update). -/
theorem C5_ai_failure_amended (env : Env) (msg : WAMessage)
    (h1 : msg.hasMessage = true) (h2 : msg.key.fromMe = false)
    (h3 : jsTrim (msgConversation msg) ≠ "")
    (h4 : env.humanMode (msgUserId msg) = false)
    (h5 : env.supportMode (msgUserId msg) = false)
    (h6 : env.groupsAIEnabled = true) (h7 : env.individualAIEnabled = true)
    (hA : env.aiFails = true) (hSd : env.sendFails = false) :
    (dispatchOne env msg).countP isSendAct = 1 ∧
    BotAction.sendMessage msg.key.remoteJid (apologyText env.aiErrorMessage)
      ∈ dispatchOne env msg ∧
    BotAction.log "ERROR" env.aiErrorMessage
      (some (extractUserId (some msg.key.remoteJid))) none false none
      ∈ dispatchOne env msg ∧
    (dispatchOne env msg).countP isSetModeAct = 0 ∧
    (dispatchOne env msg).filter isSessionWriteAct
      = [BotAction.addMessage (msgUserId msg) "user" (msgConversation msg)
           msg.key.remoteJid] := by
  have h0 : ¬(msgConversation msg = "" ∨ jsTrim (msgConversation msg) = "") := by
    rintro (he | he)
    · exact h3 (by rw [he]; rfl)
    · exact h3 he
  by_cases hFup : env.hasActiveFollowUp (msgUserId msg) = true <;>
    simp [dispatchOne, processMessage, handleError, h1, h2, h0, h4, h5, h6,
      h7, hA, hSd, hFup, isSendAct, isSetModeAct, isSessionWriteAct,
      List.countP_append, List.countP_cons, List.filter_append]

/-- C5 (witness): the amended theorem at the failing-AI environment and a
direct message. -/
theorem C5_witness :
    envAIFails.aiFails = true ∧
    ((dispatchOne envAIFails msgDirect).countP isSendAct = 1 ∧
     BotAction.sendMessage msgDirect.key.remoteJid
       (apologyText envAIFails.aiErrorMessage) ∈ dispatchOne envAIFails msgDirect ∧
     BotAction.log "ERROR" envAIFails.aiErrorMessage
       (some (extractUserId (some msgDirect.key.remoteJid))) none false none
       ∈ dispatchOne envAIFails msgDirect ∧
     (dispatchOne envAIFails msgDirect).countP isSetModeAct = 0 ∧
     (dispatchOne envAIFails msgDirect).filter isSessionWriteAct
       = [BotAction.addMessage (msgUserId msgDirect) "user"
            (msgConversation msgDirect) msgDirect.key.remoteJid]) :=
  ⟨rfl, C5_ai_failure_amended envAIFails msgDirect rfl rfl (by decide) rfl rfl
     rfl rfl rfl rfl⟩

/-! ## C4 — support-handoff control marker -/

theorem strStarts_modo (u : String) :
    strStarts ("Modo SOPORTE activado automáticamente para " ++ u)
      "Modo SOPORTE" = true := by
  unfold strStarts
  rw [String.data_append]
  exact isPrefixOf_append_left _ (by decide)

/-- C4 (counterexample): when the AI response embeds the marker twice
(`supportMarker ++ supportMarker`), JS `replace` strips only the first
occurrence, so the visible reply sent to the customer is the marker itself —
the marker DOES occur in the visible reply text. -/
theorem C4_counterexample :
    containsSub envDoubleMarker.aiResponse supportMarker = true ∧
    BotAction.sendMessage "5215550001@s.whatsapp.net" supportMarker
      ∈ dispatchOne envDoubleMarker msgDirect ∧
    containsSub supportMarker supportMarker = true := by
  decide

/-- C4 (amended): for every dispatched AI response that contains the
support-handoff marker, (a) the identity's mode is set to SUPPORT, (b) the
visible reply is the AI text with the FIRST occurrence of the marker removed
and trimmed (so the marker is absent whenever it occurred exactly once, but
not in general), and (c) exactly one mode-change log entry is written. -/
theorem C4_handoff_amended (env : Env) (msg : WAMessage)
    (h1 : msg.hasMessage = true) (h2 : msg.key.fromMe = false)
    (h3 : jsTrim (msgConversation msg) ≠ "")
    (h4 : env.humanMode (msgUserId msg) = false)
    (h5 : env.supportMode (msgUserId msg) = false)
    (h6 : env.groupsAIEnabled = true) (h7 : env.individualAIEnabled = true)
    (hA : env.aiFails = false) (hSd : env.sendFails = false)
    (hM : containsSub env.aiResponse supportMarker = true) :
    BotAction.setMode (msgUserId msg) "support" ∈ dispatchOne env msg ∧
    BotAction.sendMessage msg.key.remoteJid
      (jsTrim (replaceFirst env.aiResponse supportMarker ""))
      ∈ dispatchOne env msg ∧
    (dispatchOne env msg).countP isModeChangeLog = 1 := by
  have h0 : ¬(msgConversation msg = "" ∨ jsTrim (msgConversation msg) = "") := by
    rintro (he | he)
    · exact h3 (by rw [he]; rfl)
    · exact h3 he
  by_cases hFup : env.hasActiveFollowUp (msgUserId msg) = true <;>
    simp [dispatchOne, processMessage, h1, h2, h0, h4, h5, h6, h7, hA, hSd,
      hM, hFup, isModeChangeLog, strStarts_modo,
      List.countP_append, List.countP_cons]

/-- C4 (witness): the amended theorem at an environment whose AI response
carries the marker once, with a direct message. -/
theorem C4_witness :
    containsSub envOneMarker.aiResponse supportMarker = true ∧
    (BotAction.setMode (msgUserId msgDirect) "support"
        ∈ dispatchOne envOneMarker msgDirect ∧
     BotAction.sendMessage msgDirect.key.remoteJid
       (jsTrim (replaceFirst envOneMarker.aiResponse supportMarker ""))
       ∈ dispatchOne envOneMarker msgDirect ∧
     (dispatchOne envOneMarker msgDirect).countP isModeChangeLog = 1) :=
  ⟨by decide, C4_handoff_amended envOneMarker msgDirect rfl rfl (by decide)
     rfl rfl rfl rfl rfl rfl (by decide)⟩
